import Mathlib

/-!
Verification development for the Malloy semantic-analysis core: a shallow
embedding of the view ("turtle") / nest resolution algorithm
(`TurtleDeclRoot.getPipeline`, `TurtleDeclRoot.getFieldDef`,
`NestReference.typecheck`, `NestReference.makeEntry`), the parameter space
entries (`AbstractParameter.typeDesc`, `DefinedParameter.typeDesc`) and the
numeric-literal classifier (`ExprNumber.constantExpression`), together with
theorems settling the specified properties.

Modelling conventions:
- TypeScript string unions become Lean `String`s carrying the same literals.
- Diagnostics (`this.log(...)`) become an explicit `List String` of messages,
  in emission order; `throw this.internalError(...)` becomes `Except.error`.
- Field spaces are not modelled structurally; lookups that the source performs
  against a space (`getField`, `instanceof` discrimination, `fieldDef()`)
  become explicit inputs describing the lookup outcome, and the resolver
  helpers that live outside the translated sources (`refinePipeline`,
  `appendOps`) become function parameters, so every theorem quantifies over
  all of their behaviours.
-/

/-- One element of a stage's `fields` list: either a bare reference string or
an inline query-field definition (as synthesized by `NestReference.makeEntry`,
with `e: [{type: 'field', path}]`). -/
inductive FieldItem where
  | refItem (path : String)
  | defItem (fieldType : String) (fieldName : String)
      (expressionType : Option String) (path : String)
  deriving DecidableEq

/-- One pipeline stage: a kind tag (`reduce`, `project`, `index`, ... or a
tag with no defining operation, which makes the stage partial) and its
ordered field list. -/
structure Stage where
  kind : String
  fields : List FieldItem
  deriving DecidableEq

/-- A resolved view: `TurtleDef` without the location; `hasNote` records
whether an `annotation` is attached. -/
structure TurtleDefM where
  name : String
  pipeline : List Stage
  hasNote : Bool
  deriving DecidableEq

/-- Modelled from the spec (section 4.4.2): the stage kinds that count as a
defining operation; `detectAndRemovePartialStages` itself is not among the
translated sources, only its call site in `getFieldDef` is. -/
def definingStageKinds : List String := ["reduce", "project", "index"]

/-- Modelled from the spec: a stage is partial when none of the defining
operation kinds is present. -/
def isPartialStage (s : Stage) : Bool := !(definingStageKinds.contains s.kind)

/-- Modelled from the spec: scan the pipeline for partial stages and strip
them, reporting whether any was found (`hasPartials`) together with the
cleaned pipeline. -/
def detectAndRemovePartialStages (p : List Stage) : Bool × List Stage :=
  (p.any isPartialStage, p.filter (fun s => !(isPartialStage s)))

/-- Modelled from the spec (section 3): the expression classification is the
three-way `scalar | aggregate | analytic`; the classifier predicates the
translated sources import are not under the sources themselves. -/
def expressionIsScalar (e : String) : Bool := e = "scalar"

/-- Modelled from the spec: see `expressionIsScalar`. -/
def expressionIsAggregate (e : String) : Bool := e = "aggregate"

/-- Modelled from the spec: see `expressionIsScalar`. -/
def expressionIsAnalytic (e : String) : Bool := e = "analytic"

/-- TypeDesc: data type plus expression classification. -/
structure TypeDescM where
  dataType : String
  expressionType : String
  deriving DecidableEq

/-- Translation of `NestReference.typecheck` from the source. The boolean is
`this.inExperiment('scalar_lenses', true)`. Returns the list of logged
diagnostics, or `Except.error` for the `throw new Error(...)` branch. In the
source the analytic branch assigns `useInstead`/`kind`, but the `this.log`
call sits inside the other branch of that `if`, so nothing is reported on the
analytic path; likewise the experiment check returns before the
scalar/aggregate discrimination is reached. -/
def NestReference.typecheck (scalarLenses : Bool) (t : TypeDescM) :
    Except String (List String) :=
  if t.dataType ≠ "turtle" then
    if expressionIsAnalytic t.expressionType then
      Except.ok []
    else if scalarLenses then
      Except.ok []
    else if expressionIsScalar t.expressionType then
      Except.ok ["Cannot use a scalar field in a nest operation, did you mean to use a group_by or select operation instead?"]
    else if expressionIsAggregate t.expressionType then
      Except.ok ["Cannot use an aggregate field in a nest operation, did you mean to use an aggregate operation instead?"]
    else
      Except.error ("Unexpected expression type " ++ t.expressionType ++ " not handled here")
  else
    Except.ok []

/-- The slice of a `FieldDef` that `NestReference.makeEntry` reads:
`field.type`, `field.name`, `field.as`, `field.expressionType`. -/
structure FieldDefM where
  type : String
  name : String
  asName : Option String
  expressionType : Option String
  deriving DecidableEq

/-- Modelled from the spec: `model.isAtomicField` is imported by the
translated sources but not among them; per the spec a leaf atomic field is a
plain column of one of the scalar data types (struct- and turtle-typed
fields are not atomic). -/
def isAtomicField (fd : FieldDefM) : Bool :=
  ["string", "number", "date", "timestamp", "boolean", "unsupported"].contains fd.type

/-- Outcome of `this.name.getField(fs.inputSpace())` as `makeEntry` reads it:
the found entry is a `SpaceField` (whose `fieldDef()` may be undefined), some
other kind of entry, or nothing was found. -/
inductive NestLookup where
  | spaceField (fd : Option FieldDefM)
  | otherFound
  | notFound
  deriving DecidableEq

/-- Observable outcome of `NestReference.makeEntry` on a query space:
a synthesized turtle entry was registered, the join diagnostic was logged and
registration skipped, or control fell through to `super.makeEntry`. -/
inductive NestEntryOutcome where
  | synthesized (entryName : String) (t : TurtleDefM)
  | joinDiag
  | delegated
  deriving DecidableEq

/-- Translation of `NestReference.makeEntry` from the source. `scalarLenses`
models the ambient experiment state, which this method never consults;
`listLen` is `this.name.list.length` and `refString` is
`this.name.refString`. The atomic-field synthesis is attempted first and
returns early; only when it does not fire is the multi-segment check
reached. -/
def NestReference.makeEntry (scalarLenses : Bool) (isQuerySpace : Bool)
    (lookup : NestLookup) (listLen : Nat) (refString : String) :
    Except String NestEntryOutcome :=
  if isQuerySpace then
    let synth : Option NestEntryOutcome :=
      match lookup with
      | NestLookup.spaceField (some fd) =>
        if isAtomicField fd then
          let nm := fd.asName.getD fd.name
          some (NestEntryOutcome.synthesized nm
            { name := nm
              pipeline := [⟨"reduce",
                [FieldItem.defItem fd.type nm fd.expressionType refString]⟩]
              hasNote := false })
        else none
      | _ => none
    match synth with
    | some r => Except.ok r
    | none =>
      if listLen > 1 then Except.ok NestEntryOutcome.joinDiag
      else Except.ok NestEntryOutcome.delegated
  else
    Except.error "Unexpected namespace for nest"

/-- Whether the input-space lookup of a bare nest reference resolved to a
defined leaf atomic field, i.e. whether the synthesis path of
`NestReference.makeEntry` fires. -/
def resolvesToAtomic : NestLookup → Bool
  | NestLookup.spaceField (some fd) => isAtomicField fd
  | _ => false

/-- The slice of `this.turtleName` (a `ViewFieldReference`) that
`getPipeline` reads: the path length `list.length`, the `refString`, and the
text used by the string interpolation of the reference. -/
structure ViewRefM where
  listLen : Nat
  refString : String
  display : String
  deriving DecidableEq

/-- Result of `headEnt.found.getQueryFieldDef(fs)` for a `QueryField` head:
in the model union a bare name string, a turtle definition, or some other
(non-turtle) field definition. `isTurtle` in the source accepts exactly the
`turtleDef` shape. -/
inductive QueryFieldDefM where
  | refName (s : String)
  | turtleDef (pipeline : List Stage) (hasNote : Bool)
  | otherDef
  deriving DecidableEq

/-- Outcome of `this.turtleName.getField(fs)` as `getPipeline` discriminates
it: a lookup error, a `QueryField` (with its query-field definition), a
`ColumnSpaceField` (with the `type` of its `fieldDef()`), or any other kind
of entry. -/
inductive HeadLookup where
  | lookupErr (msg : String)
  | queryField (qfd : QueryFieldDefM)
  | columnField (defType : String)
  | otherEntry
  deriving DecidableEq

/-- The two inherited resolver helpers `getPipeline` calls but whose bodies
are outside the translated sources, abstracted as functions of the pipeline
they receive (the field space arguments are fixed by the ambient `fs`: the
head refinement and the trailing refinement both pass `fs` itself, and
`appendOps` receives a space that is a function of the current pipeline —
`fs` when it is empty, a `StaticSpace` over `getFinalStruct` of it
otherwise). -/
structure GPFuns where
  refinePipeline : List Stage → List Stage
  appendOps : List Stage → List Stage

/-- The per-declaration state `getPipeline` reads: the optional extended view
reference paired with its lookup outcome, the `scalar_lenses` experiment
state, and `this.refinements` (`none` for undefined, otherwise the list
length). -/
structure GPInput where
  turtleName : Option (ViewRefM × HeadLookup)
  scalarLenses : Bool
  refinements : Option Nat
  deriving DecidableEq

/-- The truth value of `this.refinements && this.refinements.length > 0`. -/
def hasRefinements : Option Nat → Bool
  | some k => decide (0 < k)
  | none => false

/-- The head-resolution block of `getPipeline` (the body of
`if (this.turtleName) {...}`): returns the diagnostics logged there, in
order, and the base pipeline (`modelPipe.pipeline` after the block). The
`Expected ... to be a query` message is logged exactly when `reportWrongType`
stays true. -/
def headResolve (fns : GPFuns) (scalarLenses : Bool) (tn : ViewRefM)
    (head : HeadLookup) : List String × List Stage :=
  match head with
  | HeadLookup.lookupErr msg => ([msg], [])
  | HeadLookup.queryField qfd =>
    let joinDiags : List String :=
      if tn.listLen > 1 then ["Cannot use view from join"] else []
    match qfd with
    | QueryFieldDefM.turtleDef pipe _ => (joinDiags, fns.refinePipeline pipe)
    | _ =>
      (joinDiags ++ ["Expected \x27" ++ tn.display ++ "\x27 to be a query"], [])
  | HeadLookup.columnField defType =>
    if scalarLenses && defType ≠ "struct" then
      ([], fns.refinePipeline [⟨"reduce", [FieldItem.refItem tn.refString]⟩])
    else
      (["Expected \x27" ++ tn.display ++ "\x27 to be a query"], [])
  | HeadLookup.otherEntry =>
    (["Expected \x27" ++ tn.display ++ "\x27 to be a query"], [])

/-- Translation of `TurtleDeclRoot.getPipeline` from the source: resolve the
extended head (if any), append this declaration's own operations (over the
re-scoped space when the base pipeline is non-empty, which `fns.appendOps`
absorbs), and apply the trailing refinement pass exactly when refinement
clauses are present and no named view was extended. The annotation
inheritance side effect (`extendNote`) carries no pipeline content and is
elided. Returns the logged diagnostics in order and the final pipeline. -/
def TurtleDeclRoot.getPipeline (fns : GPFuns) (inp : GPInput) :
    List String × List Stage :=
  let headOut : List String × List Stage :=
    match inp.turtleName with
    | none => ([], [])
    | some (tn, head) => headResolve fns inp.scalarLenses tn head
  let appended := fns.appendOps headOut.2
  if hasRefinements inp.refinements && inp.turtleName.isNone then
    (headOut.1, fns.refinePipeline appended)
  else
    (headOut.1, appended)

/-- The base pipeline `getPipeline` has assembled after head resolution,
before `appendOps` and the trailing refinement. -/
def basePipeOf (fns : GPFuns) (inp : GPInput) : List Stage :=
  match inp.turtleName with
  | none => []
  | some (tn, head) => (headResolve fns inp.scalarLenses tn head).2

/-- Translation of `TurtleDeclRoot.getFieldDef` from the source, with the
partial-stage scan abstracted as the `detect` parameter (its result is the
`{hasPartials, pipeline}` pair). Returns the diagnostics (those of
`getPipeline`, then the view-type message when partial stages were found)
and the returned `TurtleDef`. -/
def TurtleDeclRoot.getFieldDef (fns : GPFuns)
    (detect : List Stage → Bool × List Stage) (inp : GPInput)
    (nm : String) (hasNote : Bool) : List String × TurtleDefM :=
  let res := TurtleDeclRoot.getPipeline fns inp
  let turtle : TurtleDefM := { name := nm, pipeline := res.2, hasNote := hasNote }
  let cleaned := detect res.2
  if cleaned.1 then
    (res.1 ++
      ["Can\x27t determine view type (`group_by` / `aggregate` / `nest`, `project`, `index`)"],
      { turtle with pipeline := cleaned.2 })
  else
    (res.1, turtle)

/-- Accumulate a digit list into a natural number, most significant first. -/
def digitsToNat (ds : List Char) : Nat :=
  ds.foldl (fun a c => 10 * a + (c.toNat - 48)) 0

/-- Optional exponent suffix of a JavaScript decimal numeric string: on
`[eE][+-]?digits` consuming the whole remainder yields the exponent, an empty
remainder yields exponent 0, anything else is a failed parse (NaN). -/
def parseExpPart : List Char → Option Int
  | [] => some 0
  | c :: rest =>
    if c = 'e' || c = 'E' then
      let signed : Bool × List Char :=
        match rest with
        | '-' :: r => (true, r)
        | '+' :: r => (false, r)
        | _ => (false, rest)
      let ds := signed.2.takeWhile Char.isDigit
      let leftover := signed.2.dropWhile Char.isDigit
      if ds.isEmpty || !leftover.isEmpty then none
      else some (if signed.1 then -(digitsToNat ds : Int) else (digitsToNat ds : Int))
    else none

/-- Model of the JavaScript `Number(string)` conversion on decimal numeric
strings, the shapes the numeric-literal token can carry:
`[+-]? digits [. digits] [eE [+-]? digits]` (with at least one digit) maps to
its exact value, represented without rounding as a signed decimal mantissa
`m` and a power-of-ten exponent `p` (the value is `m * 10 ^ p`); anything
else maps to `none` (NaN). The binary floating-point rounding of the
platform is abstracted away, and the whitespace/hex/Infinity forms, which no
numeric literal produces, are out of the model. -/
def jsNumber (s : String) : Option (Int × Int) :=
  let cs := s.toList
  let signed : Bool × List Char :=
    match cs with
    | '-' :: rest => (true, rest)
    | '+' :: rest => (false, rest)
    | _ => (false, cs)
  let ip := signed.2.takeWhile Char.isDigit
  let afterInt := signed.2.dropWhile Char.isDigit
  let fracPart : List Char × List Char :=
    match afterInt with
    | '.' :: rest => (rest.takeWhile Char.isDigit, rest.dropWhile Char.isDigit)
    | _ => ([], afterInt)
  if ip.isEmpty && fracPart.1.isEmpty then none
  else
    match parseExpPart fracPart.2 with
    | none => none
    | some exv =>
      let mag : Int := (digitsToNat (ip ++ fracPart.1) : Int)
      some (if signed.1 then -mag else mag, exv - (fracPart.1.length : Int))

/-- The exact rational value of a parsed number. -/
def jsValue (v : Int × Int) : ℚ := (v.1 : ℚ) * (10 : ℚ) ^ v.2

/-- The `Number.isInteger` test on the exact model: `m * 10 ^ p` has no
fractional part, i.e. `p ≥ 0` or `10 ^ (-p)` divides `m`. -/
def jsIsInteger (v : Int × Int) : Bool :=
  if 0 ≤ v.2 then true else v.1 % (10 : Int) ^ (-v.2).toNat = 0

/-- The `NumberTypeDef` the classifier produces: `{type: 'number'}` with an
optional `numberType` sub-kind. -/
structure NumberTypeDef where
  type : String
  numberType : Option String
  deriving DecidableEq

/-- Translation of `ExprNumber.constantExpression` from the source (the data
type it wraps into the literal expression value): parse `this.n`; on NaN no
sub-kind, otherwise `integer` when the value is an integer, else `float`.
Total function: no error is raised on any input. -/
def ExprNumber.constantExpression (n : String) : NumberTypeDef :=
  match jsNumber n with
  | none => { type := "number", numberType := none }
  | some q =>
    { type := "number"
      numberType := some (if jsIsInteger q then "integer" else "float") }

/-- Translation of `AbstractParameter.typeDesc` from the source: the
argument is `this.astParam.type` (`none` for undefined; the `||` fallback
also replaces an empty string). -/
def AbstractParameter.typeDesc (astParamType : Option String) : TypeDescM :=
  let t :=
    match astParamType with
    | some s => if s = "" then "unknown" else s
    | none => "unknown"
  { dataType := t, expressionType := "scalar" }

/-- Translation of `DefinedParameter.typeDesc` from the source: the argument
is `this.paramDef.type`. -/
def DefinedParameter.typeDesc (paramDefType : String) : TypeDescM :=
  { dataType := paramDefType, expressionType := "scalar" }

deriving instance DecidableEq for Except

/-- Relates the model's `Number.isInteger` test to the exact value: the test
succeeds exactly when the parsed value is an integer (no fractional part). -/
theorem jsIsInteger_iff (v : Int × Int) :
    jsIsInteger v = true ↔ ∃ z : ℤ, jsValue v = (z : ℚ) := by
  obtain ⟨m, p⟩ := v
  simp only [jsIsInteger, jsValue]
  by_cases hp : 0 ≤ p
  · simp only [if_pos hp, true_iff]
    refine ⟨m * 10 ^ p.toNat, ?_⟩
    have h10 : (10 : ℚ) ^ p = (10 : ℚ) ^ p.toNat := by
      rw [← zpow_natCast (10 : ℚ) p.toNat, Int.toNat_of_nonneg hp]
    rw [h10]
    push_cast
    ring
  · simp only [if_neg hp, decide_eq_true_eq]
    push_neg at hp
    have hk : p = -((-p).toNat : ℤ) := by omega
    constructor
    · intro h
      obtain ⟨c, hc⟩ := Int.dvd_of_emod_eq_zero h
      refine ⟨c, ?_⟩
      rw [hk, hc]
      push_cast
      rw [zpow_neg, zpow_natCast]
      field_simp
    · rintro ⟨z, hz⟩
      rw [hk, zpow_neg, zpow_natCast] at hz
      have hm : (m : ℚ) = (z : ℚ) * (10 : ℚ) ^ (-p).toNat := by
        field_simp at hz
        linarith [hz]
      have hint : m = z * 10 ^ (-p).toNat := by exact_mod_cast hm
      exact Int.emod_eq_zero_of_dvd ⟨z, by rw [hint]; ring⟩

/-- Claim C1, counterexample: at a two-segment (join-crossing) reference that
resolves to a view with a non-empty pipeline, `getPipeline` emits
"Cannot use view from join" but does not proceed with an empty base: with
identity refine/append helpers the joined view's own stage is the resulting
pipeline, which is non-empty. -/
theorem getPipeline_join_empty_base_cex :
    TurtleDeclRoot.getPipeline ⟨id, id⟩
      ⟨some (⟨2, "a.v", "a.v"⟩, HeadLookup.queryField
        (QueryFieldDefM.turtleDef [⟨"reduce", [FieldItem.refItem "x"]⟩] false)), false, none⟩ =
      (["Cannot use view from join"], [⟨"reduce", [FieldItem.refItem "x"]⟩]) ∧
    ([⟨"reduce", [FieldItem.refItem "x"]⟩] : List Stage) ≠ [] := by decide

/-- Claim C1, amended: when the declaration extends a named view through a
reference crossing more than one path segment and the reference resolves to
a view, `getPipeline` emits exactly the diagnostic "Cannot use view from
join" and still uses the joined view's pipeline, refined by this
declaration's clauses, as the base of the resolution. -/
theorem getPipeline_join_view_uses_joined_base (fns : GPFuns) (tn : ViewRefM)
    (pipe : List Stage) (hn sl : Bool) (r : Option Nat) (h : 1 < tn.listLen) :
    TurtleDeclRoot.getPipeline fns
      ⟨some (tn, HeadLookup.queryField (QueryFieldDefM.turtleDef pipe hn)), sl, r⟩ =
      (["Cannot use view from join"], fns.appendOps (fns.refinePipeline pipe)) := by
  simp [TurtleDeclRoot.getPipeline, headResolve, h]

/-- Claim C1, witness for the amended theorem at a concrete input. -/
theorem getPipeline_join_view_uses_joined_base_witness :
    TurtleDeclRoot.getPipeline ⟨id, id⟩
      ⟨some (⟨2, "b", "b"⟩, HeadLookup.queryField (QueryFieldDefM.turtleDef [] true)), true, some 1⟩ =
      (["Cannot use view from join"], []) :=
  getPipeline_join_view_uses_joined_base ⟨id, id⟩ ⟨2, "b", "b"⟩ [] true true (some 1) (by decide)

/-- Claim C2: evaluation of the translated `NestReference.typecheck` at the
divergent inputs. An analytic-classified non-turtle descriptor is silently
accepted (the source computes the message parts on that path, but the log
call sits in the other branch and never runs), and with the scalar-lens
experiment active an aggregate-classified non-turtle descriptor is also
silently accepted (the early return precedes the aggregate discrimination);
the turtle-acceptance and both scalar behaviours, and the aggregate
diagnostic with the experiment off, are as specified. -/
theorem typecheck_code_divergence :
    NestReference.typecheck false ⟨"number", "analytic"⟩ = Except.ok [] ∧
    NestReference.typecheck true ⟨"number", "aggregate"⟩ = Except.ok [] ∧
    NestReference.typecheck false ⟨"turtle", "scalar"⟩ = Except.ok [] ∧
    NestReference.typecheck true ⟨"turtle", "aggregate"⟩ = Except.ok [] ∧
    NestReference.typecheck false ⟨"number", "scalar"⟩ =
      Except.ok ["Cannot use a scalar field in a nest operation, did you mean to use a group_by or select operation instead?"] ∧
    NestReference.typecheck true ⟨"number", "scalar"⟩ = Except.ok [] ∧
    NestReference.typecheck false ⟨"number", "aggregate"⟩ =
      Except.ok ["Cannot use an aggregate field in a nest operation, did you mean to use an aggregate operation instead?"] := by
  decide

/-- Claim C3, counterexample: the multi-segment reference
`join_field.amount` resolving in the input space to a leaf atomic `number`
field does not yield the join diagnostic under either experiment state —
the atomic synthesis fires first and registers a turtle entry. -/
theorem makeEntry_join_diag_cex :
    NestReference.makeEntry true true
      (NestLookup.spaceField (some ⟨"number", "amount", none, some "scalar"⟩)) 2 "join_field.amount" =
      Except.ok (NestEntryOutcome.synthesized "amount"
        ⟨"amount", [⟨"reduce", [FieldItem.defItem "number" "amount" (some "scalar") "join_field.amount"]⟩], false⟩) ∧
    NestReference.makeEntry false true
      (NestLookup.spaceField (some ⟨"number", "amount", none, some "scalar"⟩)) 2 "join_field.amount" ≠
      Except.ok NestEntryOutcome.joinDiag ∧
    NestReference.makeEntry true true
      (NestLookup.spaceField (some ⟨"number", "amount", none, some "scalar"⟩)) 2 "join_field.amount" ≠
      Except.ok NestEntryOutcome.joinDiag := by decide

/-- Claim C3, amended: a multi-segment bare-reference nest yields "Cannot
nest view from join" exactly when its reference does not resolve in the
input space to a defined leaf atomic field (otherwise the unconditional
atomic synthesis fires first); and `makeEntry` is independent of the
scalar-lens experiment state on every input. -/
theorem makeEntry_join_diag_when_not_atomic (sl sl' q : Bool) (lk : NestLookup)
    (n : Nat) (rs : String) :
    (resolvesToAtomic lk = false → 1 < n →
      NestReference.makeEntry sl true lk n rs = Except.ok NestEntryOutcome.joinDiag) ∧
    NestReference.makeEntry sl q lk n rs = NestReference.makeEntry sl' q lk n rs := by
  constructor
  · intro h h2
    cases lk with
    | spaceField fd =>
      cases fd with
      | none => simp [NestReference.makeEntry, h2]
      | some f =>
        simp only [resolvesToAtomic] at h
        simp [NestReference.makeEntry, h, h2]
    | otherFound => simp [NestReference.makeEntry, h2]
    | notFound => simp [NestReference.makeEntry, h2]
  · rfl

/-- Claim C3, witness for the amended theorem at a concrete input. -/
theorem makeEntry_join_diag_when_not_atomic_witness :
    NestReference.makeEntry true true NestLookup.otherFound 2 "a.b" =
      Except.ok NestEntryOutcome.joinDiag ∧
    NestReference.makeEntry true true NestLookup.otherFound 2 "a.b" =
      NestReference.makeEntry false true NestLookup.otherFound 2 "a.b" :=
  ⟨(makeEntry_join_diag_when_not_atomic true false true NestLookup.otherFound 2 "a.b").1
      (by decide) (by decide),
   (makeEntry_join_diag_when_not_atomic true false true NestLookup.otherFound 2 "a.b").2⟩

/-- Claim C4: inside a query space, a bare-reference nest whose reference
resolves in the input space to a leaf atomic field registers a synthesized
turtle entry whose pipeline is exactly one `reduce` stage wrapping just that
field, for every experiment state (the synthesis is not gated by the
scalar-lens flag) and every path length. -/
theorem makeEntry_atomic_synthesizes (sl : Bool) (fd : FieldDefM) (n : Nat) (rs : String)
    (h : isAtomicField fd = true) :
    NestReference.makeEntry sl true (NestLookup.spaceField (some fd)) n rs =
      Except.ok (NestEntryOutcome.synthesized (fd.asName.getD fd.name)
        ⟨fd.asName.getD fd.name,
         [⟨"reduce", [FieldItem.defItem fd.type (fd.asName.getD fd.name) fd.expressionType rs]⟩],
         false⟩) := by
  simp [NestReference.makeEntry, h]

/-- Claim C4, witness at a concrete atomic field. -/
theorem makeEntry_atomic_synthesizes_witness :
    NestReference.makeEntry false true
      (NestLookup.spaceField (some ⟨"number", "amount", none, some "scalar"⟩)) 1 "amount" =
      Except.ok (NestEntryOutcome.synthesized "amount"
        ⟨"amount", [⟨"reduce", [FieldItem.defItem "number" "amount" (some "scalar") "amount"]⟩], false⟩) :=
  makeEntry_atomic_synthesizes false ⟨"number", "amount", none, some "scalar"⟩ 1 "amount" (by decide)

/-- Claim C5: when the extended name resolves to a plain scalar column
field, the scalar-lens experiment is on and the field's type is not
`struct`, `getPipeline` emits no diagnostic and continues with the
synthesized one-stage `reduce` pipeline over exactly that field as the
base. -/
theorem getPipeline_scalar_lens_column (fns : GPFuns) (tn : ViewRefM) (dt : String)
    (r : Option Nat) (h : dt ≠ "struct") :
    TurtleDeclRoot.getPipeline fns ⟨some (tn, HeadLookup.columnField dt), true, r⟩ =
      ([], fns.appendOps (fns.refinePipeline [⟨"reduce", [FieldItem.refItem tn.refString]⟩])) := by
  simp [TurtleDeclRoot.getPipeline, headResolve, h]

/-- Claim C5, witness at a concrete numeric column. -/
theorem getPipeline_scalar_lens_column_witness :
    TurtleDeclRoot.getPipeline ⟨id, id⟩
      ⟨some (⟨1, "amount", "amount"⟩, HeadLookup.columnField "number"), true, none⟩ =
      ([], [⟨"reduce", [FieldItem.refItem "amount"]⟩]) :=
  getPipeline_scalar_lens_column ⟨id, id⟩ ⟨1, "amount", "amount"⟩ "number" none (by decide)

/-- Claim C6: the trailing refinement pass runs exactly when the declaration
carries a non-empty refinement list and did not extend a named view; in
every other case, in particular whenever a named view was extended, the
final pipeline is the appended pipeline with no trailing pass. -/
theorem getPipeline_trailing_refinement (fns : GPFuns) (inp : GPInput) :
    (TurtleDeclRoot.getPipeline fns inp).2 =
      (if hasRefinements inp.refinements && inp.turtleName.isNone then
        fns.refinePipeline (fns.appendOps (basePipeOf fns inp))
      else fns.appendOps (basePipeOf fns inp)) := by
  unfold TurtleDeclRoot.getPipeline basePipeOf
  cases h : inp.turtleName <;>
    · simp only [h]
      split <;> rfl

/-- Claim C7: when the partial-stage scan reports partial stages,
`getFieldDef` appends the view-type diagnostic and still returns the
`TurtleDef`, with the cleaned pipeline substituted; when it reports none,
the assembled pipeline is returned unchanged with no extra diagnostic. -/
theorem getFieldDef_partial_handling (fns : GPFuns)
    (detect : List Stage → Bool × List Stage) (inp : GPInput) (nm : String) (hn : Bool) :
    ((detect (TurtleDeclRoot.getPipeline fns inp).2).1 = true →
      TurtleDeclRoot.getFieldDef fns detect inp nm hn =
        ((TurtleDeclRoot.getPipeline fns inp).1 ++
          ["Can\x27t determine view type (`group_by` / `aggregate` / `nest`, `project`, `index`)"],
         ⟨nm, (detect (TurtleDeclRoot.getPipeline fns inp).2).2, hn⟩)) ∧
    ((detect (TurtleDeclRoot.getPipeline fns inp).2).1 = false →
      TurtleDeclRoot.getFieldDef fns detect inp nm hn =
        ((TurtleDeclRoot.getPipeline fns inp).1,
         ⟨nm, (TurtleDeclRoot.getPipeline fns inp).2, hn⟩)) := by
  constructor <;> intro h <;> simp [TurtleDeclRoot.getFieldDef, h]

/-- Claim C7, witness with a scan that reports a partial stage. -/
theorem getFieldDef_partial_handling_witness :
    TurtleDeclRoot.getFieldDef ⟨id, id⟩ (fun p => (true, p)) ⟨none, false, none⟩ "v" false =
      (["Can\x27t determine view type (`group_by` / `aggregate` / `nest`, `project`, `index`)"],
       ⟨"v", [], false⟩) :=
  (getFieldDef_partial_handling ⟨id, id⟩ (fun p => (true, p)) ⟨none, false, none⟩ "v" false).1 rfl

/-- Claim C8: the partial-stage stripping is idempotent, and a pipeline the
scan reports clean is returned unchanged. -/
theorem detectAndRemovePartialStages_idem (p : List Stage) :
    (detectAndRemovePartialStages (detectAndRemovePartialStages p).2).2 =
      (detectAndRemovePartialStages p).2 ∧
    ((detectAndRemovePartialStages p).1 = false → (detectAndRemovePartialStages p).2 = p) := by
  constructor
  · simp [detectAndRemovePartialStages, List.filter_filter]
  · intro h
    simp only [detectAndRemovePartialStages, List.any_eq_false] at h
    simp only [detectAndRemovePartialStages]
    exact List.filter_eq_self.mpr (fun s hs => by simp [h s hs])

/-- Claim C8, witness at a concrete clean pipeline. -/
theorem detectAndRemovePartialStages_idem_witness :
    (detectAndRemovePartialStages (detectAndRemovePartialStages [(⟨"reduce", []⟩ : Stage)]).2).2 =
      (detectAndRemovePartialStages [(⟨"reduce", []⟩ : Stage)]).2 ∧
    (detectAndRemovePartialStages [(⟨"reduce", []⟩ : Stage)]).2 = [(⟨"reduce", []⟩ : Stage)] :=
  ⟨(detectAndRemovePartialStages_idem [⟨"reduce", []⟩]).1,
   (detectAndRemovePartialStages_idem [⟨"reduce", []⟩]).2 (by decide)⟩

/-- Claim C9: numeric-literal classification: a failed parse (NaN) yields a
plain `number` with no sub-kind and no error; a successful parse yields
`integer` exactly when the parsed value has no fractional part and `float`
otherwise; and the literals "3", "3.5" and "abc" classify as integer, float
and plain number respectively. -/
theorem constantExpression_classification :
    (∀ n, jsNumber n = none → ExprNumber.constantExpression n = ⟨"number", none⟩) ∧
    (∀ n v, jsNumber n = some v → ExprNumber.constantExpression n =
      ⟨"number", some (if jsIsInteger v then "integer" else "float")⟩) ∧
    (∀ v, jsIsInteger v = true ↔ ∃ z : ℤ, jsValue v = (z : ℚ)) ∧
    ExprNumber.constantExpression "3" = ⟨"number", some "integer"⟩ ∧
    ExprNumber.constantExpression "3.5" = ⟨"number", some "float"⟩ ∧
    ExprNumber.constantExpression "abc" = ⟨"number", none⟩ := by
  refine ⟨?_, ?_, jsIsInteger_iff, by decide, by decide, by decide⟩
  · intro n h
    simp [ExprNumber.constantExpression, h]
  · intro n v h
    simp [ExprNumber.constantExpression, h]

/-- Claim C9, witness: the exponent form "25e-1" (value 2.5) classifies as
float, through the general successful-parse conjunct. -/
theorem constantExpression_classification_witness :
    ExprNumber.constantExpression "25e-1" = ⟨"number", some "float"⟩ := by
  rw [constantExpression_classification.2.1 "25e-1" (25, -1) (by decide)]
  decide

/-- Claim C10: both parameter space entries always report a `TypeDesc` whose
expression classification is scalar, for every declared data type, and are
therefore never classified aggregate or analytic. -/
theorem param_typeDesc_always_scalar (t : Option String) (s : String) :
    (AbstractParameter.typeDesc t).expressionType = "scalar" ∧
    (DefinedParameter.typeDesc s).expressionType = "scalar" ∧
    expressionIsAggregate (AbstractParameter.typeDesc t).expressionType = false ∧
    expressionIsAnalytic (AbstractParameter.typeDesc t).expressionType = false ∧
    expressionIsAggregate (DefinedParameter.typeDesc s).expressionType = false ∧
    expressionIsAnalytic (DefinedParameter.typeDesc s).expressionType = false := by
  refine ⟨rfl, rfl, ?_, ?_, ?_, ?_⟩ <;>
    simp [AbstractParameter.typeDesc, DefinedParameter.typeDesc,
      expressionIsAggregate, expressionIsAnalytic]
